import Mathlib

set_option linter.unusedVariables false

/-!
Verification of the Trending Lyrics API backend (`src/main.py`) against its
natural-language specification.

The embedding is shallow: the Mongo "song" collection is a list of documents
(`PDoc`, each field `Option (Option _)`: outer `none` = key absent from the
dict, inner value = the stored value, itself optional because Python stores
`None`); the external HTTP world is passed in as explicit response values
(`Resp` for the three lyrics providers, `FeedResp` for the iTunes RSS feed).
Python truthiness on strings is `pyTruthy`; `a or b` on two optional strings
is `pyOr`; `dict.get(k)` on a document field is `pget`.
-/

/-- Python `dict.get(key)` on a document field: `none` when the key is absent,
otherwise the stored value. -/
def pget {α : Type} (f : Option (Option α)) : Option α := f.getD none

/-- Python truthiness of an optional string: `None` and `""` are falsy;
returns the value itself when truthy. -/
def pyTruthy (v : Option String) : Option String :=
  match v with
  | some s => if s = "" then none else some s
  | none => none

/-- Python `a or b` on two optional strings: `a` when truthy, else `b`. -/
def pyOr (a b : Option String) : Option String :=
  match pyTruthy a with
  | some s => some s
  | none => b

/-- A document of the Mongo `song` collection (and also a `$set` patch
document): each field is `some v` when the dict has that key with value `v`
(`v` itself optional: Python `None` is stored as JSON null), `none` when the
key is absent. Fields follow `schemas.Song` / the dicts built in
`src/main.py`. -/
structure PDoc where
  title : Option (Option String) := none
  artist : Option (Option String) := none
  album : Option (Option String) := none
  cover : Option (Option String) := none
  apple_url : Option (Option String) := none
  preview_url : Option (Option String) := none
  lyrics : Option (Option String) := none
  lyrics_source : Option (Option String) := none
  country : Option (Option String) := none
  rank : Option (Option Nat) := none
  tags : Option (Option (List String)) := none
deriving DecidableEq

/-- Mongo `$set`: every key present in the patch overwrites the target's
field; keys absent from the patch are left alone. -/
def setFields (p d : PDoc) : PDoc where
  title := p.title <|> d.title
  artist := p.artist <|> d.artist
  album := p.album <|> d.album
  cover := p.cover <|> d.cover
  apple_url := p.apple_url <|> d.apple_url
  preview_url := p.preview_url <|> d.preview_url
  lyrics := p.lyrics <|> d.lyrics
  lyrics_source := p.lyrics_source <|> d.lyrics_source
  country := p.country <|> d.country
  rank := p.rank <|> d.rank
  tags := p.tags <|> d.tags

/-- A document matches the filter `{"title": kt, "artist": ka}`. -/
def keyMatch (kt ka : Option String) (d : PDoc) : Prop :=
  pget d.title = kt ∧ pget d.artist = ka

instance (kt ka : Option String) (d : PDoc) : Decidable (keyMatch kt ka d) := by
  unfold keyMatch; infer_instance

/-- The document a Mongo upsert inserts when no document matches the filter:
the filter's equality fields (the `$set` part is merged on top by
`update_one`). -/
def freshDoc (kt ka : Option String) : PDoc where
  title := some kt
  artist := some ka

/-- Mongo `update_one(key, {"$set": patch}, upsert=True)` on the collection in
natural order: the first matching document is patched in place, else a new
document is appended. -/
def update_one (kt ka : Option String) (p : PDoc) : List PDoc → List PDoc
  | [] => [setFields p (freshDoc kt ka)]
  | d :: ds =>
    if keyMatch kt ka d then setFields p d :: ds
    else d :: update_one kt ka p ds

/-- Mongo `find_one(key)`: the first matching document. -/
def find_one (kt ka : Option String) : List PDoc → Option PDoc
  | [] => none
  | d :: ds => if keyMatch kt ka d then some d else find_one kt ka ds

/-- Python `str.isspace` on one character, for the characters `str.strip`
removes. -/
def pySpace (c : Char) : Bool :=
  c == ' ' || c == '\t' || c == '\n' || c == '\r' || c == '\x0b' || c == '\x0c'

/-- Python `str.strip()`: drop leading and trailing whitespace. -/
def pyStrip (s : String) : String :=
  ⟨((s.data.dropWhile pySpace).reverse.dropWhile pySpace).reverse⟩

/-- Python `str.startswith(pre)`. -/
def startsWithChars : List Char → List Char → Bool
  | [], _ => true
  | _ :: _, [] => false
  | a :: pre, b :: rest => a == b && startsWithChars pre rest

/-- Python `s.startswith(pre)` on strings. -/
def pyStartsWith (s pre : String) : Bool := startsWithChars pre.data s.data

/-- `_normalize_song_key` of `src/main.py`: strips surrounding whitespace from
both parts. -/
def _normalize_song_key (title artist : String) : String × String :=
  (pyStrip title, pyStrip artist)

/-- `_upsert_song` of `src/main.py`: no-op when the database is unavailable,
else `update_one` keyed by the document's own raw `title`/`artist`. -/
def _upsert_song (db : Option (List PDoc)) (doc : PDoc) : Option (List PDoc) :=
  match db with
  | none => none
  | some coll => some (update_one (pget doc.title) (pget doc.artist) doc coll)

/-- `_get_song_from_db` of `src/main.py`: `none` when the database is
unavailable, else `find_one` keyed by the normalized (stripped) pair. -/
def _get_song_from_db (db : Option (List PDoc)) (title artist : String) : Option PDoc :=
  match db with
  | none => none
  | some coll =>
    find_one (some (_normalize_song_key title artist).1)
      (some (_normalize_song_key title artist).2) coll

/-- The JSON body a lyrics provider returns: the fields the code reads. -/
structure LyricsJson where
  lyrics : Option String := none
  lyric : Option String := none
deriving DecidableEq

/-- Outcome of one provider HTTP call: `fail` is any raised exception
(network error or malformed body), `ok` a response with a status code and a
parsed JSON body. -/
inductive Resp where
  | fail
  | ok (status : Nat) (data : LyricsJson)
deriving DecidableEq

/-- The lyrist step of `fetch_lyrics_from_providers`: a 200 response whose
body has a truthy `lyrics` or `lyric` field yields that value. -/
def lyristHit (r : Resp) : Option String :=
  match r with
  | .fail => none
  | .ok status data =>
    if status = 200 then pyTruthy (pyOr data.lyrics data.lyric) else none

/-- The lyrics.ovh step: a 200 response with a truthy `lyrics` field. -/
def ovhHit (r : Resp) : Option String :=
  match r with
  | .fail => none
  | .ok status data => if status = 200 then pyTruthy data.lyrics else none

/-- The some-random-api step: a 200 response with a truthy `lyrics` field. -/
def sraHit (r : Resp) : Option String :=
  match r with
  | .fail => none
  | .ok status data => if status = 200 then pyTruthy data.lyrics else none

/-- `fetch_lyrics_from_providers` of `src/main.py`: tries lyrist, lyrics.ovh,
some-random-api in that order, returning the first truthy lyrics together
with the provider's name; `(none, none)` when all three miss. `artist` and
`title` only shape the request URLs, so they do not influence the outcome
once the three responses are given. -/
def fetch_lyrics_from_providers (artist title : String) (rA rB rC : Resp) :
    Option String × Option String :=
  match lyristHit rA with
  | some lyr => (some lyr, some "lyrist")
  | none =>
    match ovhHit rB with
    | some lyr => (some lyr, some "lyrics.ovh")
    | none =>
      match sraHit rC with
      | some lyr => (some lyr, some "some-random-api")
      | none => (none, none)

/-- A FastAPI handler outcome: `httpError` models a raised `HTTPException`. -/
inductive ApiResult (α : Type) where
  | httpError (status : Nat) (detail : String)
  | ok (value : α)
deriving DecidableEq

/-- The `LyricsOut` response model of `src/main.py`. -/
structure LyricsOut where
  title : String
  artist : String
  lyrics : Option String
  source : Option String
deriving DecidableEq

/-- The cache document `get_lyrics` upserts on a provider success. -/
def lyricsDoc (title artist : String) (lyrics source : Option String) : PDoc where
  title := some (some title)
  artist := some (some artist)
  lyrics := some lyrics
  lyrics_source := some source

/-- The tail of `get_lyrics` after a cache miss: query the provider chain,
404 when it misses, otherwise upsert the cache document (skipped when the
database is unavailable, which `_upsert_song` already encodes) and return
the lyrics with their source. -/
def get_lyrics_fetch (db : Option (List PDoc)) (rA rB rC : Resp) (artist title : String) :
    ApiResult LyricsOut × Option (List PDoc) :=
  match fetch_lyrics_from_providers artist title rA rB rC with
  | (some lyr, source) =>
    (.ok ⟨title, artist, some lyr, source⟩,
      _upsert_song db (lyricsDoc title artist (some lyr) source))
  | (none, _) => (.httpError 404 "Lirik tidak ditemukan secara otomatis", db)

/-- `get_lyrics` of `src/main.py` (`GET /api/lyrics`): 400 on an empty
parameter; else return a cached record's truthy lyrics with its stored
source; else fall through to the provider chain. The pair's second component
is the database state after the call. -/
def get_lyrics (db : Option (List PDoc)) (rA rB rC : Resp) (artist title : String) :
    ApiResult LyricsOut × Option (List PDoc) :=
  if artist = "" ∨ title = "" then (.httpError 400 "Artist dan judul wajib diisi", db)
  else
    match _get_song_from_db db title artist with
    | some doc =>
      match pyTruthy (pget doc.lyrics) with
      | some _ => (.ok ⟨title, artist, pget doc.lyrics, pget doc.lyrics_source⟩, db)
      | none => get_lyrics_fetch db rA rB rC artist title
    | none => get_lyrics_fetch db rA rB rC artist title

/-- One entry of an RSS feed entry's `im:image` list. -/
structure FeedImage where
  label : String
deriving DecidableEq

/-- The `attributes` dict of a feed link entry: the fields the code reads. -/
structure LinkAttrs where
  href : Option String := none
  type : Option String := none
deriving DecidableEq

/-- One feed link entry (a dict that may lack `attributes`). -/
structure LinkObj where
  attributes : Option LinkAttrs := none
deriving DecidableEq

/-- The shape of a feed entry's `link` field: absent, a single dict, or a
list of dicts. -/
inductive LinkField where
  | absent
  | single (l : LinkObj)
  | items (ls : List LinkObj)
deriving DecidableEq

/-- One entry of the iTunes RSS feed, with the fields `get_trending` reads.
`name_label`/`artist_label` are `e["im:name"]["label"]` and
`e["im:artist"]["label"]`, modelled as present (an entry without them makes
the handler's response validation fail, outside the specified behaviour).
`collection` is `some lbl` when `im:collection` is present and truthy, with
`lbl` its `im:name.label`. -/
structure FeedEntry where
  name_label : String
  artist_label : String
  collection : Option (Option String) := none
  image : List FeedImage := []
  link : LinkField := .absent
deriving DecidableEq

/-- The first link entry whose `attributes.href` is truthy, as scanned by the
`apple_url` loop of `get_trending`. -/
def firstHref : List LinkObj → Option String
  | [] => none
  | l :: ls =>
    match pyTruthy ((l.attributes.getD {}).href) with
    | some h => some h
    | none => firstHref ls

/-- `apple_url` extraction of `get_trending`: over a list, the first truthy
href; over a single dict, its (unchecked) `attributes.href`; else `None`. -/
def appleUrlOfLink : LinkField → Option String
  | .items ls => firstHref ls
  | .single l => (l.attributes.getD {}).href
  | .absent => none

/-- The first link entry whose declared media type starts with `audio/` and
whose href is truthy, as scanned by the `preview_url` loop of
`get_trending`. -/
def firstAudioHref : List LinkObj → Option String
  | [] => none
  | l :: ls =>
    let attrs := l.attributes.getD {}
    if pyStartsWith (attrs.type.getD "") "audio/" && (pyTruthy attrs.href).isSome
    then attrs.href
    else firstAudioHref ls

/-- `preview_url` extraction of `get_trending`: only a `link` field that is a
list is inspected. -/
def previewUrlOfLink : LinkField → Option String
  | .items ls => firstAudioHref ls
  | _ => none

/-- The document `get_trending` upserts for one feed entry: every
chart-derived field is a present key (possibly with a null value); the
lyrics fields are absent, so `$set` leaves them alone. -/
def chartDoc (country : String) (idx : Nat) (e : FeedEntry) : PDoc where
  title := some (some e.name_label)
  artist := some (some e.artist_label)
  album := some (match e.collection with | some lbl => lbl | none => none)
  cover := some (match e.image.getLast? with | some img => some img.label | none => none)
  apple_url := some (appleUrlOfLink e.link)
  preview_url := some (previewUrlOfLink e.link)
  country := some (some country)
  rank := some (some idx)
  tags := some (some ["trending"])

/-- The `lyrics_available` check of `get_trending`: false when the database
is unavailable, else whether the stored record found for the (stripped)
(title, artist) key has truthy lyrics longer than 30 characters. It only
reads storage; no provider is consulted. -/
def lyricsAvailable (db : Option (List PDoc)) (title artist : String) : Bool :=
  match db with
  | none => false
  | some _ =>
    match _get_song_from_db db title artist with
    | some existing =>
      match pyTruthy (pget existing.lyrics) with
      | some l => decide (30 < l.length)
      | none => false
    | none => false

/-- The `SongOut` response model of `src/main.py`. -/
structure SongOut where
  title : String
  artist : String
  album : Option String
  cover : Option String
  apple_url : Option String
  preview_url : Option String
  lyrics_available : Bool
  rank : Nat
deriving DecidableEq

/-- The body of `get_trending`'s per-entry loop: build the chart document,
upsert it, compute `lyrics_available` on the post-upsert state, and emit the
entry's summary. -/
def processEntry (country : String) (idx : Nat) (e : FeedEntry) (db : Option (List PDoc)) :
    SongOut × Option (List PDoc) :=
  let doc := chartDoc country idx e
  let db2 := _upsert_song db doc
  ({ title := e.name_label, artist := e.artist_label,
     album := pget doc.album, cover := pget doc.cover,
     apple_url := pget doc.apple_url, preview_url := pget doc.preview_url,
     lyrics_available := lyricsAvailable db2 e.name_label e.artist_label,
     rank := idx }, db2)

/-- `for idx, e in enumerate(entries, start=1)`: process entries in feed
order, threading the database state. -/
def runEntries (country : String) (idx : Nat) (es : List FeedEntry)
    (db : Option (List PDoc)) : List SongOut × Option (List PDoc) :=
  match es with
  | [] => ([], db)
  | e :: rest =>
    let r1 := processEntry country idx e db
    let r2 := runEntries country (idx + 1) rest r1.2
    (r1.1 :: r2.1, r2.2)

/-- Outcome of fetching the RSS chart feed: `fail` is any request exception,
bad HTTP status (`raise_for_status`) or malformed body; `ok` carries the
parsed `feed.entry` list (defaulted to `[]` by the code's `.get` chain). -/
inductive FeedResp where
  | fail (msg : String)
  | ok (entries : List FeedEntry)
deriving DecidableEq

/-- `get_trending` of `src/main.py` (`GET /api/trending`): 502 on feed-fetch
failure, else one summary per entry in feed order. The pair's second
component is the database state after the call. `limit` only shapes the feed
URL (FastAPI validates its 1..100 bounds before the handler runs). -/
def get_trending (db : Option (List PDoc)) (country : String) (limit : Nat)
    (feed : FeedResp) : ApiResult (List SongOut) × Option (List PDoc) :=
  match feed with
  | .fail msg => (.httpError 502 ("Gagal mengambil chart: " ++ msg), db)
  | .ok entries =>
    let r := runEntries country 1 entries db
    (.ok r.1, r.2)

/-- The database effect of `get_trending` on an available collection, as a
pure fold: each entry is an `update_one` keyed by its raw (title, artist)
with its chart document as the `$set` patch. -/
def ingestList (country : String) (idx : Nat) (es : List FeedEntry)
    (coll : List PDoc) : List PDoc :=
  match es with
  | [] => coll
  | e :: rest =>
    ingestList country (idx + 1) rest
      (update_one (some e.name_label) (some e.artist_label) (chartDoc country idx e) coll)

/-- The lyrics fields stored at one position of a collection: `some` pair
when the position exists. -/
def lyricsPairAt (coll : List PDoc) (i : Nat) : Option (Option String × Option String) :=
  match coll.get? i with
  | some d => some (pget d.lyrics, pget d.lyrics_source)
  | none => none

/-- A stored record keyed by title "X" and artist "" with non-empty cached
lyrics, used to refute claim C2 as literally stated. -/
def c2CachedDoc : PDoc :=
  { title := some (some "X"), artist := some (some ""),
    lyrics := some (some "hello"), lyrics_source := some (some "prov") }

/-- A cached record for ("T", "A") with lyrics "hello", used by the C2
witness. -/
def c2WitnessDoc : PDoc :=
  { title := some (some "T"), artist := some (some "A"),
    lyrics := some (some "hello"), lyrics_source := some (some "lyrist") }

/-- A pre-existing chart record for ("T", "A") with no lyrics, used by the
C6 witness. -/
def c6ExistingDoc : PDoc :=
  { title := some (some "T"), artist := some (some "A"), album := some (some "Al"),
    cover := some (some "C"), apple_url := some (some "AU"),
    preview_url := some (some "PU"), country := some (some "id"),
    rank := some (some 3), tags := some (some ["trending"]) }

/-- A feed entry whose link list has the audio-typed href first and the
non-audio href second, used to refute claim C7 as literally stated. -/
def c7SwappedEntry : FeedEntry :=
  { name_label := "T", artist_label := "A", collection := none,
    image := [⟨"i1"⟩],
    link := .items [⟨some ⟨some "u2", some "audio/x-m4a"⟩⟩,
      ⟨some ⟨some "u1", some "text/html"⟩⟩] }

/-- The feed entry of the C7 witness: three images of increasing size, then
a link list with one non-audio href followed by one audio-typed href. -/
def c7Entry : FeedEntry :=
  { name_label := "T", artist_label := "A", collection := some (some "Al"),
    image := [⟨"i1"⟩, ⟨"i2"⟩, ⟨"i3"⟩],
    link := .items [⟨some ⟨some "u1", some "text/html"⟩⟩,
      ⟨some ⟨some "u2", some "audio/x-m4a"⟩⟩] }

/-! ## Lemmas about the storage engine -/

theorem opt_orElse_absorb {α : Type} (a b : Option α) : (a <|> (a <|> b)) = (a <|> b) := by
  cases a <;> rfl

theorem setFields_absorb (p d : PDoc) : setFields p (setFields p d) = setFields p d := by
  cases p; cases d; simp [setFields, opt_orElse_absorb]

theorem pyTruthy_eq_some {v : Option String} {h : String} (hv : pyTruthy v = some h) :
    v = some h ∧ h ≠ "" := by
  cases v with
  | none => simp [pyTruthy] at hv
  | some s =>
    by_cases hs : s = "" <;> simp [pyTruthy, hs] at hv
    subst hv; exact ⟨rfl, hs⟩

theorem setFields_key {p : PDoc} {kt ka : Option String} (d : PDoc)
    (h1 : p.title = some kt) (h2 : p.artist = some ka) :
    keyMatch kt ka (setFields p d) := by
  constructor <;> simp [keyMatch, setFields, h1, h2, pget]

theorem keyMatch_setFields_iff {p : PDoc} {kt ka kt' ka' : Option String} (d : PDoc)
    (h1 : p.title = some kt) (h2 : p.artist = some ka) :
    keyMatch kt' ka' (setFields p d) ↔ (kt' = kt ∧ ka' = ka) := by
  simp [keyMatch, setFields, h1, h2, pget, eq_comm]

theorem keyMatch_freshDoc (kt ka : Option String) : keyMatch kt ka (freshDoc kt ka) := by
  constructor <;> rfl

theorem find_one_update_one {kt ka : Option String} {p : PDoc} (c : List PDoc)
    (h1 : p.title = some kt) (h2 : p.artist = some ka) :
    find_one kt ka (update_one kt ka p c) =
      some (setFields p ((find_one kt ka c).getD (freshDoc kt ka))) := by
  induction c with
  | nil =>
    simp only [update_one, find_one, Option.getD]
    rw [if_pos (setFields_key _ h1 h2)]
  | cons d ds ih =>
    by_cases hm : keyMatch kt ka d
    · simp only [update_one, find_one, if_pos hm]
      rw [if_pos (setFields_key _ h1 h2)]
      rfl
    · simp only [update_one, find_one, if_neg hm]
      exact ih

theorem find_one_update_one_other {kt ka kt' ka' : Option String} {p : PDoc} (c : List PDoc)
    (h1 : p.title = some kt) (h2 : p.artist = some ka)
    (hne : ¬(kt' = kt ∧ ka' = ka)) :
    find_one kt' ka' (update_one kt ka p c) = find_one kt' ka' c := by
  induction c with
  | nil =>
    simp only [update_one, find_one]
    rw [if_neg]
    rw [keyMatch_setFields_iff _ h1 h2]
    exact hne
  | cons d ds ih =>
    by_cases hm : keyMatch kt ka d
    · simp only [update_one, if_pos hm, find_one]
      rw [if_neg, if_neg]
      · intro hd
        rcases hm with ⟨hmt, hma⟩
        rcases hd with ⟨hdt, hda⟩
        exact hne ⟨hdt.symm.trans hmt, hda.symm.trans hma⟩
      · rw [keyMatch_setFields_iff _ h1 h2]
        exact hne
    · simp only [update_one, if_neg hm, find_one]
      by_cases hm' : keyMatch kt' ka' d
      · rw [if_pos hm', if_pos hm']
      · rw [if_neg hm', if_neg hm']
        exact ih

theorem update_one_id {kt ka : Option String} {p : PDoc} {r : PDoc} (c : List PDoc)
    (hfind : find_one kt ka c = some r) (habs : setFields p r = r) :
    update_one kt ka p c = c := by
  induction c with
  | nil => simp [find_one] at hfind
  | cons d ds ih =>
    by_cases hm : keyMatch kt ka d
    · simp only [find_one, if_pos hm, Option.some.injEq] at hfind
      subst hfind
      simp only [update_one, if_pos hm, habs]
    · simp only [find_one, if_neg hm] at hfind
      simp only [update_one, if_neg hm, ih hfind]

theorem update_one_compose {kt ka : Option String} {p1 p2 : PDoc} (c : List PDoc)
    (h1 : p1.title = some kt) (h2 : p1.artist = some ka)
    (hcomp : ∀ d : PDoc, setFields p2 (setFields p1 d) = setFields p2 d) :
    update_one kt ka p2 (update_one kt ka p1 c) = update_one kt ka p2 c := by
  induction c with
  | nil =>
    simp only [update_one]
    rw [if_pos (setFields_key _ h1 h2), hcomp]
  | cons d ds ih =>
    by_cases hm : keyMatch kt ka d
    · simp only [update_one, if_pos hm]
      rw [if_pos (setFields_key _ h1 h2), hcomp]
    · simp only [update_one, if_neg hm, ih]

theorem update_one_comm {kt ka kt' ka' : Option String} {p p' : PDoc} (c : List PDoc)
    (h1 : p.title = some kt) (h2 : p.artist = some ka)
    (h1' : p'.title = some kt') (h2' : p'.artist = some ka')
    (hne : ¬(kt' = kt ∧ ka' = ka))
    (hk : (find_one kt ka c).isSome = true) :
    update_one kt' ka' p' (update_one kt ka p c) =
      update_one kt ka p (update_one kt' ka' p' c) := by
  induction c with
  | nil => simp [find_one] at hk
  | cons d ds ih =>
    by_cases hm : keyMatch kt ka d
    · have hm' : ¬ keyMatch kt' ka' d := by
        intro hd
        exact hne ⟨hd.1.symm.trans hm.1, hd.2.symm.trans hm.2⟩
      have hs' : ¬ keyMatch kt' ka' (setFields p d) := by
        rw [keyMatch_setFields_iff _ h1 h2]
        exact hne
      simp only [update_one, if_pos hm, if_neg hm', if_neg hs']
    · by_cases hm' : keyMatch kt' ka' d
      · have hs : ¬ keyMatch kt ka (setFields p' d) := by
          rw [keyMatch_setFields_iff _ h1' h2']
          intro hd
          exact hne ⟨hd.1.symm, hd.2.symm⟩
        simp only [update_one, if_neg hm, if_pos hm', if_neg hs]
      · simp only [find_one, if_neg hm] at hk
        simp only [update_one, if_neg hm, if_neg hm', ih hk]

theorem update_one_decomp {kt ka : Option String} {p : PDoc} (pre post : List PDoc) (d : PDoc)
    (hpre : ∀ d0 ∈ pre, ¬ keyMatch kt ka d0) (hd : keyMatch kt ka d) :
    update_one kt ka p (pre ++ d :: post) = pre ++ setFields p d :: post := by
  induction pre with
  | nil => simp only [List.nil_append, update_one, if_pos hd]
  | cons d0 pre' ih =>
    have h0 : ¬ keyMatch kt ka d0 := hpre d0 (by simp)
    simp only [List.cons_append, update_one, if_neg h0]
    exact congrArg (List.cons d0) (ih fun x hx => hpre x (by simp [hx]))

/-! ## Lemmas about chart ingestion -/

theorem setFields_chart_chart (c2 : String) (i2 : Nat) (e2 : FeedEntry)
    (c1 : String) (i1 : Nat) (e1 : FeedEntry) (d : PDoc) :
    setFields (chartDoc c2 i2 e2) (setFields (chartDoc c1 i1 e1) d) =
      setFields (chartDoc c2 i2 e2) d := by
  cases d; rfl

theorem ingestList_absorb (country : String) (es : List FeedEntry) :
    ∀ (idx : Nat) (X : List PDoc) (c0 : String) (i0 : Nat) (e0 : FeedEntry),
    (find_one (some e0.name_label) (some e0.artist_label) X).isSome = true →
    (∃ f ∈ es, f.name_label = e0.name_label ∧ f.artist_label = e0.artist_label) →
    ingestList country idx es
        (update_one (some e0.name_label) (some e0.artist_label) (chartDoc c0 i0 e0) X) =
      ingestList country idx es X := by
  induction es with
  | nil =>
    intro idx X c0 i0 e0 hk hmem
    exact absurd hmem (by simp)
  | cons f es' ih =>
    intro idx X c0 i0 e0 hk hmem
    by_cases hf : f.name_label = e0.name_label ∧ f.artist_label = e0.artist_label
    · simp only [ingestList]
      rw [hf.1, hf.2]
      exact congrArg (ingestList country (idx + 1) es')
        (update_one_compose X rfl rfl fun d => setFields_chart_chart country idx f c0 i0 e0 d)
    · have hmem' : ∃ g ∈ es', g.name_label = e0.name_label ∧ g.artist_label = e0.artist_label := by
        rcases hmem with ⟨g, hg, hgk⟩
        rcases List.mem_cons.mp hg with rfl | hg'
        · exact absurd hgk hf
        · exact ⟨g, hg', hgk⟩
      have hne : ¬(some f.name_label = some e0.name_label ∧
          some f.artist_label = some e0.artist_label) := by
        intro h
        exact hf ⟨Option.some.inj h.1, Option.some.inj h.2⟩
      have hne' : ¬(some e0.name_label = some f.name_label ∧
          some e0.artist_label = some f.artist_label) := by
        intro h
        exact hf ⟨(Option.some.inj h.1).symm, (Option.some.inj h.2).symm⟩
      simp only [ingestList]
      rw [update_one_comm X rfl rfl rfl rfl hne hk]
      exact ih (idx + 1) _ c0 i0 e0
        (by rw [find_one_update_one_other X rfl rfl hne']; exact hk) hmem'

theorem find_one_ingestList (country : String) (es : List FeedEntry) :
    ∀ (idx : Nat) (X : List PDoc) (kt ka : Option String),
    (∀ f ∈ es, ¬(kt = some f.name_label ∧ ka = some f.artist_label)) →
    find_one kt ka (ingestList country idx es X) = find_one kt ka X := by
  induction es with
  | nil => intro idx X kt ka hnot; rfl
  | cons f es' ih =>
    intro idx X kt ka hnot
    simp only [ingestList]
    rw [ih (idx + 1) _ kt ka fun g hg => hnot g (by simp [hg])]
    exact find_one_update_one_other X rfl rfl (hnot f (by simp))

theorem find_one_isSome_ingestList (country : String) (es : List FeedEntry) :
    ∀ (idx : Nat) (X : List PDoc) (kt ka : Option String),
    (find_one kt ka X).isSome = true →
    (find_one kt ka (ingestList country idx es X)).isSome = true := by
  induction es with
  | nil => intro idx X kt ka hk; exact hk
  | cons f es' ih =>
    intro idx X kt ka hk
    simp only [ingestList]
    apply ih
    by_cases hfk : kt = some f.name_label ∧ ka = some f.artist_label
    · rcases hfk with ⟨rfl, rfl⟩
      rw [find_one_update_one X rfl rfl]
      rfl
    · rw [find_one_update_one_other X rfl rfl hfk]
      exact hk

theorem ingestList_idem (country : String) (es : List FeedEntry) :
    ∀ (idx : Nat) (X : List PDoc),
    ingestList country idx es (ingestList country idx es X) = ingestList country idx es X := by
  induction es with
  | nil => intro idx X; rfl
  | cons e es' ih =>
    intro idx X
    simp only [ingestList]
    by_cases hmem : ∃ f ∈ es', f.name_label = e.name_label ∧ f.artist_label = e.artist_label
    · have hkY : (find_one (some e.name_label) (some e.artist_label)
          (ingestList country (idx + 1) es'
            (update_one (some e.name_label) (some e.artist_label)
              (chartDoc country idx e) X))).isSome = true := by
        apply find_one_isSome_ingestList
        rw [find_one_update_one X rfl rfl]
        rfl
      rw [ingestList_absorb country es' (idx + 1) _ country idx e hkY hmem]
      exact ih (idx + 1) _
    · have hnot : ∀ f ∈ es', ¬(some e.name_label = some f.name_label ∧
          some e.artist_label = some f.artist_label) := by
        intro f hf h
        exact hmem ⟨f, hf, (Option.some.inj h.1).symm, (Option.some.inj h.2).symm⟩
      have hfY : find_one (some e.name_label) (some e.artist_label)
          (ingestList country (idx + 1) es'
            (update_one (some e.name_label) (some e.artist_label)
              (chartDoc country idx e) X)) =
          some (setFields (chartDoc country idx e)
            ((find_one (some e.name_label) (some e.artist_label) X).getD
              (freshDoc (some e.name_label) (some e.artist_label)))) := by
        rw [find_one_ingestList country es' (idx + 1) _ _ _ hnot]
        exact find_one_update_one X rfl rfl
      rw [update_one_id _ hfY (setFields_absorb _ _)]
      exact ih (idx + 1) _

theorem lyricsPairAt_update_one (kt ka : Option String) (p : PDoc)
    (hl : p.lyrics = none) (hs : p.lyrics_source = none) (c : List PDoc) (i : Nat) :
    lyricsPairAt c i = none ∨ lyricsPairAt (update_one kt ka p c) i = lyricsPairAt c i := by
  induction c generalizing i with
  | nil => left; rfl
  | cons d ds ih =>
    by_cases hm : keyMatch kt ka d
    · right
      cases i with
      | zero =>
        simp only [update_one, if_pos hm, lyricsPairAt, List.get?]
        simp [setFields, hl, hs, pget]
      | succ i' => simp only [update_one, if_pos hm, lyricsPairAt, List.get?]
    · cases i with
      | zero => right; simp only [update_one, if_neg hm, lyricsPairAt, List.get?]
      | succ i' =>
        rcases ih i' with h | h
        · left
          simpa [lyricsPairAt, List.get?] using h
        · right
          simpa [update_one, if_neg hm, lyricsPairAt, List.get?] using h

theorem lyricsPairAt_ingestList (country : String) (es : List FeedEntry) :
    ∀ (idx : Nat) (X : List PDoc) (i : Nat),
    lyricsPairAt X i = none ∨
      lyricsPairAt (ingestList country idx es X) i = lyricsPairAt X i := by
  induction es with
  | nil => intro idx X i; right; rfl
  | cons e es' ih =>
    intro idx X i
    simp only [ingestList]
    rcases lyricsPairAt_update_one (some e.name_label) (some e.artist_label)
        (chartDoc country idx e) rfl rfl X i with h1 | h1
    · left; exact h1
    · rcases ih (idx + 1) _ i with h2 | h2
      · left
        rw [h1] at h2
        exact h2
      · right
        rw [h2, h1]

/-! ## Lemmas bridging the handler to the pure fold -/

theorem runEntries_snd_none (country : String) (es : List FeedEntry) :
    ∀ idx, (runEntries country idx es none).2 = none := by
  induction es with
  | nil => intro idx; rfl
  | cons e es' ih =>
    intro idx
    show (runEntries country (idx + 1) es' (processEntry country idx e none).2).2 = none
    exact ih (idx + 1)

theorem runEntries_snd_some (country : String) (es : List FeedEntry) :
    ∀ (idx : Nat) (coll : List PDoc),
    (runEntries country idx es (some coll)).2 = some (ingestList country idx es coll) := by
  induction es with
  | nil => intro idx coll; rfl
  | cons e es' ih =>
    intro idx coll
    show (runEntries country (idx + 1) es' (processEntry country idx e (some coll)).2).2 = _
    have hp : (processEntry country idx e (some coll)).2 =
        some (update_one (some e.name_label) (some e.artist_label)
          (chartDoc country idx e) coll) := rfl
    rw [hp]
    exact ih (idx + 1) _

theorem runEntries_length (country : String) (es : List FeedEntry) :
    ∀ (idx : Nat) (db : Option (List PDoc)),
    (runEntries country idx es db).1.length = es.length := by
  induction es with
  | nil => intro idx db; rfl
  | cons e es' ih =>
    intro idx db
    show ((processEntry country idx e db).1 ::
      (runEntries country (idx + 1) es' (processEntry country idx e db).2).1).length = _
    simp [ih (idx + 1)]

theorem runEntries_fst (country : String) (es : List FeedEntry) :
    ∀ (idx : Nat) (db : Option (List PDoc)) (i : Nat),
    ((runEntries country idx es db).1.get? i).map (fun o => (o.title, o.artist, o.rank)) =
      (es.get? i).map (fun e => (e.name_label, e.artist_label, idx + i)) := by
  induction es with
  | nil => intro idx db i; rfl
  | cons e es' ih =>
    intro idx db i
    cases i with
    | zero => rfl
    | succ i' =>
      show (((runEntries country (idx + 1) es' (processEntry country idx e db).2).1).get? i').map _
        = (es'.get? i').map _
      rw [ih (idx + 1) _ i']
      have harith : idx + 1 + i' = idx + (i' + 1) := by omega
      rw [harith]

/-! ## Claim-level helper lemmas -/

theorem get_lyrics_cache_miss (db : Option (List PDoc)) (rA rB rC : Resp)
    (artist title : String) (hv : ¬(artist = "" ∨ title = ""))
    (hmiss : (_get_song_from_db db title artist).bind
      (fun d => pyTruthy (pget d.lyrics)) = none) :
    get_lyrics db rA rB rC artist title = get_lyrics_fetch db rA rB rC artist title := by
  unfold get_lyrics
  rw [if_neg hv]
  cases hfd : _get_song_from_db db title artist with
  | none => rfl
  | some d =>
    rw [hfd] at hmiss
    simp only [Option.some_bind] at hmiss
    simp only [hmiss]

theorem get_lyrics_fetch_hit (db : Option (List PDoc)) (rA rB rC : Resp)
    (artist title : String) (l : String) (s : Option String)
    (hfetch : fetch_lyrics_from_providers artist title rA rB rC = (some l, s)) :
    get_lyrics_fetch db rA rB rC artist title =
      (.ok ⟨title, artist, some l, s⟩,
        _upsert_song db (lyricsDoc title artist (some l) s)) := by
  unfold get_lyrics_fetch
  rw [hfetch]

/-! ## Claims -/

/-- Claim C1: the provider fallback chain is ordered lyrist, lyrics.ovh,
some-random-api and stops at the first non-empty lyrics text. For every
(artist, title), when the lyrist step yields no non-empty lyrics and
lyrics.ovh answers 200 with a non-empty `lyrics` string, the resolver
returns that string paired with "lyrics.ovh" — for every possible response
of the third provider, which therefore never influences the outcome (it is
not invoked). -/
theorem c1_fallback_order (artist title : String) (rA rB rC : Resp) (dB : LyricsJson)
    (l : String) (hA : lyristHit rA = none) (hB : rB = .ok 200 dB)
    (hl : dB.lyrics = some l) (hne : l ≠ "") :
    fetch_lyrics_from_providers artist title rA rB rC = (some l, some "lyrics.ovh") := by
  unfold fetch_lyrics_from_providers
  rw [hA]
  have hovh : ovhHit rB = some l := by
    rw [hB]
    simp [ovhHit, pyTruthy, hl, hne]
  rw [hovh]

/-- Witness for C1 at a concrete input: provider A fails, provider B returns
"La la la", provider C would return something else and is ignored. -/
theorem c1_fallback_order_witness :
    fetch_lyrics_from_providers "a" "t" .fail (.ok 200 ⟨some "La la la", none⟩)
      (.ok 200 ⟨some "zzz", none⟩) = (some "La la la", some "lyrics.ovh") :=
  c1_fallback_order "a" "t" .fail (.ok 200 ⟨some "La la la", none⟩)
    (.ok 200 ⟨some "zzz", none⟩) ⟨some "La la la", none⟩ "La la la" rfl rfl rfl (by decide)

/-- Counterexample to claim C2 as stated: for (title, artist) = ("X", ""),
the storage lookup does return a record with non-empty lyrics, yet
`get_lyrics` returns a 400 validation error instead of the stored lyrics,
because the empty-parameter check runs before the cache lookup. -/
theorem c2_counterexample :
    _get_song_from_db (some [c2CachedDoc]) "X" "" = some c2CachedDoc ∧
    pyTruthy (pget c2CachedDoc.lyrics) = some "hello" ∧
    get_lyrics (some [c2CachedDoc]) .fail .fail .fail "" "X" =
      (.httpError 400 "Artist dan judul wajib diisi", some [c2CachedDoc]) := by
  decide

/-- Claim C2 (amended: both parameters non-empty, as the 400 validation
otherwise applies): whenever the storage lookup returns a record with truthy
lyrics, `get_lyrics` returns the stored lyrics with the stored
lyrics_source and leaves storage unchanged; the result is the same for
every provider response, so no external provider is invoked. -/
theorem c2_cache_precedence (db : Option (List PDoc)) (rA rB rC : Resp)
    (artist title : String) (d : PDoc) (l : String)
    (ha : artist ≠ "") (ht : title ≠ "")
    (hfind : _get_song_from_db db title artist = some d)
    (hl : pyTruthy (pget d.lyrics) = some l) :
    get_lyrics db rA rB rC artist title =
      (.ok ⟨title, artist, pget d.lyrics, pget d.lyrics_source⟩, db) := by
  unfold get_lyrics
  rw [if_neg (by simp [ha, ht]), hfind]
  simp only [hl]

/-- Witness for C2 at a concrete input: a cached record for ("T", "A") with
lyrics "hello" is returned untouched whatever the providers would say. -/
theorem c2_cache_precedence_witness :
    get_lyrics (some [c2WitnessDoc]) .fail .fail .fail "A" "T" =
      (.ok ⟨"T", "A", pget c2WitnessDoc.lyrics, pget c2WitnessDoc.lyrics_source⟩,
        some [c2WitnessDoc]) :=
  c2_cache_precedence _ .fail .fail .fail "A" "T" _ "hello" (by decide) (by decide)
    (by decide) (by decide)

/-- Counterexample to claim C3 as stated: for (artist, title) = ("", "X")
with no cached lyrics and all three providers missing, `get_lyrics` fails
with 400, not with the claimed 404 — the empty-parameter validation fires
first. Storage is nevertheless unchanged. -/
theorem c3_counterexample :
    get_lyrics (some []) .fail .fail .fail "" "X" =
      (.httpError 400 "Artist dan judul wajib diisi", some []) ∧
    (get_lyrics (some []) .fail .fail .fail "" "X").1 ≠
      .httpError 404 "Lirik tidak ditemukan secara otomatis" := by
  decide

/-- Claim C3 (amended: both parameters non-empty, as the 400 validation
otherwise applies): with no truthy cached lyrics and all three providers
missing, `get_lyrics` fails with the 404 "Lirik tidak ditemukan secara
otomatis" error and the storage state is returned unchanged — no cache
entry is written for the miss. -/
theorem c3_all_miss (db : Option (List PDoc)) (rA rB rC : Resp) (artist title : String)
    (ha : artist ≠ "") (ht : title ≠ "")
    (hmiss : (_get_song_from_db db title artist).bind
      (fun d => pyTruthy (pget d.lyrics)) = none)
    (hA : lyristHit rA = none) (hB : ovhHit rB = none) (hC : sraHit rC = none) :
    get_lyrics db rA rB rC artist title =
      (.httpError 404 "Lirik tidak ditemukan secara otomatis", db) := by
  rw [get_lyrics_cache_miss db rA rB rC artist title (by simp [ha, ht]) hmiss]
  unfold get_lyrics_fetch fetch_lyrics_from_providers
  rw [hA, hB, hC]

/-- Witness for C3 at a concrete input: empty collection, all providers
fail, result is the 404 error with the collection untouched. -/
theorem c3_all_miss_witness :
    get_lyrics (some []) .fail .fail .fail "A" "T" =
      (.httpError 404 "Lirik tidak ditemukan secara otomatis", some []) :=
  c3_all_miss (some []) .fail .fail .fail "A" "T" (by decide) (by decide) (by decide)
    rfl rfl rfl

/-- Counterexample to claim C5 as stated: upserting a record keyed
(" A", "B") and looking it up with the identical strings " A", "B" finds
nothing, because `_upsert_song` keys on the raw strings while
`_get_song_from_db` strips surrounding whitespace before matching. -/
theorem c5_counterexample :
    _get_song_from_db (_upsert_song (some [])
      ({ title := some (some " A"), artist := some (some "B") } : PDoc)) " A" "B" = none := by
  decide

/-- Claim C5 (amended: for title and artist already equal to their stripped
forms — in general the lookup strips whitespace while the upsert keys on the
raw strings, so a padded title or artist breaks the round trip): upserting a
document keyed by (title, artist) and looking the pair up again finds
exactly the upserted record — the first previously matching record patched
with the document, or the freshly inserted one. -/
theorem c5_key_roundtrip (title artist : String) (coll : List PDoc) (doc : PDoc)
    (ht : pyStrip title = title) (ha : pyStrip artist = artist)
    (hdt : doc.title = some (some title)) (hda : doc.artist = some (some artist)) :
    _get_song_from_db (_upsert_song (some coll) doc) title artist =
      some (setFields doc ((find_one (some title) (some artist) coll).getD
        (freshDoc (some title) (some artist)))) := by
  have h1 : pget doc.title = some title := by rw [hdt]; rfl
  have h2 : pget doc.artist = some artist := by rw [hda]; rfl
  show find_one (some (pyStrip title)) (some (pyStrip artist))
      (update_one (pget doc.title) (pget doc.artist) doc coll) = _
  rw [ht, ha, h1, h2]
  exact find_one_update_one coll hdt hda

/-- Witness for C5 at a concrete input: upserting a record keyed ("T", "A")
into an empty collection and looking ("T", "A") up finds the inserted
record. -/
theorem c5_key_roundtrip_witness :
    _get_song_from_db (_upsert_song (some [])
        ({ title := some (some "T"), artist := some (some "A"),
           lyrics := some (some "L") } : PDoc)) "T" "A" =
      some (setFields
        ({ title := some (some "T"), artist := some (some "A"),
           lyrics := some (some "L") } : PDoc)
        ((find_one (some "T") (some "A") []).getD (freshDoc (some "T") (some "A")))) :=
  c5_key_roundtrip "T" "A" [] _ (by decide) (by decide) rfl rfl

/-- Claim C6: on a provider success with storage available (and valid
non-empty parameters, a cache miss having routed the call to the
providers), `get_lyrics` returns the fetched lyrics with the winning
source, and persists them by patching the first record matching the raw
(title, artist) key in place: its lyrics and lyrics_source become the
fetched values while album, cover, apple_url, preview_url, rank, country
and tags are all unchanged; the rest of the collection is untouched. -/
theorem c6_persist_merge (coll pre post : List PDoc) (d : PDoc) (rA rB rC : Resp)
    (artist title : String) (l : String) (s : Option String)
    (ha : artist ≠ "") (ht : title ≠ "")
    (hmiss : (_get_song_from_db (some coll) title artist).bind
      (fun d0 => pyTruthy (pget d0.lyrics)) = none)
    (hfetch : fetch_lyrics_from_providers artist title rA rB rC = (some l, s))
    (hcoll : coll = pre ++ d :: post)
    (hpre : ∀ d0 ∈ pre, ¬ keyMatch (some title) (some artist) d0)
    (hd : keyMatch (some title) (some artist) d) :
    get_lyrics (some coll) rA rB rC artist title =
      (.ok ⟨title, artist, some l, s⟩,
        some (pre ++ setFields (lyricsDoc title artist (some l) s) d :: post)) ∧
    (setFields (lyricsDoc title artist (some l) s) d).album = d.album ∧
    (setFields (lyricsDoc title artist (some l) s) d).cover = d.cover ∧
    (setFields (lyricsDoc title artist (some l) s) d).apple_url = d.apple_url ∧
    (setFields (lyricsDoc title artist (some l) s) d).preview_url = d.preview_url ∧
    (setFields (lyricsDoc title artist (some l) s) d).rank = d.rank ∧
    (setFields (lyricsDoc title artist (some l) s) d).country = d.country ∧
    (setFields (lyricsDoc title artist (some l) s) d).tags = d.tags ∧
    pget (setFields (lyricsDoc title artist (some l) s) d).lyrics = some l ∧
    pget (setFields (lyricsDoc title artist (some l) s) d).lyrics_source = s := by
  refine ⟨?_, rfl, rfl, rfl, rfl, rfl, rfl, rfl, rfl, rfl⟩
  rw [get_lyrics_cache_miss _ rA rB rC artist title (by simp [ha, ht]) hmiss,
    get_lyrics_fetch_hit _ rA rB rC artist title l s hfetch]
  subst hcoll
  have hupd : update_one (some title) (some artist) (lyricsDoc title artist (some l) s)
      (pre ++ d :: post) = pre ++ setFields (lyricsDoc title artist (some l) s) d :: post :=
    update_one_decomp pre post d hpre hd
  show (ApiResult.ok (⟨title, artist, some l, s⟩ : LyricsOut),
      some (update_one (some title) (some artist) (lyricsDoc title artist (some l) s)
        (pre ++ d :: post))) = _
  rw [hupd]

/-- Witness for C6 at a concrete input: provider B wins with "La la la" and
the existing chart record for ("T", "A") is patched in place. -/
theorem c6_persist_merge_witness :
    get_lyrics (some [c6ExistingDoc]) .fail (.ok 200 ⟨some "La la la", none⟩) .fail "A" "T" =
      (.ok ⟨"T", "A", some "La la la", some "lyrics.ovh"⟩,
        some [setFields (lyricsDoc "T" "A" (some "La la la") (some "lyrics.ovh"))
          c6ExistingDoc]) :=
  (c6_persist_merge [c6ExistingDoc] [] [] c6ExistingDoc .fail
    (.ok 200 ⟨some "La la la", none⟩) .fail "A" "T" "La la la" (some "lyrics.ovh")
    (by decide) (by decide) (by decide) rfl rfl (by decide) (by decide)).1

/-- Claim C10 (implicit): when a feed entry's `link` field is a single
object rather than a list, `apple_url` is taken from that object's
`attributes.href` but `preview_url` is unconditionally `None` — even when
the single link declares an audio media type — because the preview loop
only inspects `link` fields that are lists. -/
theorem c10_single_link (country : String) (idx : Nat) (e : FeedEntry)
    (db : Option (List PDoc)) (lobj : LinkObj) (h : e.link = .single lobj) :
    (processEntry country idx e db).1.preview_url = none ∧
    (processEntry country idx e db).1.apple_url = (lobj.attributes.getD {}).href := by
  constructor
  · show pget (some (previewUrlOfLink e.link)) = none
    rw [h]
    rfl
  · show pget (some (appleUrlOfLink e.link)) = _
    rw [h]
    rfl

/-- Witness for C10 at a concrete input: a single link object that does
declare an audio type still yields `preview_url = none`, while `apple_url`
is its href. -/
theorem c10_single_link_witness :
    (processEntry "id" 1 ⟨"T", "A", none, [],
      .single ⟨some ⟨some "urlp", some "audio/x-m4a"⟩⟩⟩ none).1.preview_url = none ∧
    (processEntry "id" 1 ⟨"T", "A", none, [],
      .single ⟨some ⟨some "urlp", some "audio/x-m4a"⟩⟩⟩ none).1.apple_url = some "urlp" :=
  c10_single_link "id" 1 _ none ⟨some ⟨some "urlp", some "audio/x-m4a"⟩⟩ rfl

theorem firstHref_decomp (pre : List LinkObj) (lnk : LinkObj) (post : List LinkObj)
    (h : String)
    (hpre : ∀ l0 ∈ pre, pyTruthy ((l0.attributes.getD {}).href) = none)
    (hlnk : pyTruthy ((lnk.attributes.getD {}).href) = some h) :
    firstHref (pre ++ lnk :: post) = some h := by
  induction pre with
  | nil => simp only [List.nil_append, firstHref, hlnk]
  | cons l0 pre' ih =>
    have h0 := hpre l0 (by simp)
    simp only [List.cons_append, firstHref, h0]
    exact ih fun x hx => hpre x (by simp [hx])

theorem firstAudioHref_decomp (pre : List LinkObj) (lnk : LinkObj) (post : List LinkObj)
    (h : String)
    (hpre : ∀ l0 ∈ pre,
      (pyStartsWith ((l0.attributes.getD {}).type.getD "") "audio/" &&
        (pyTruthy ((l0.attributes.getD {}).href)).isSome) = false)
    (htype : pyStartsWith ((lnk.attributes.getD {}).type.getD "") "audio/" = true)
    (hhref : pyTruthy ((lnk.attributes.getD {}).href) = some h) :
    firstAudioHref (pre ++ lnk :: post) = some h := by
  induction pre with
  | nil =>
    rcases pyTruthy_eq_some hhref with ⟨hraw, hne⟩
    simp only [List.nil_append, firstAudioHref, htype, hhref, hraw]
    simp [pyTruthy, hne]
  | cons l0 pre' ih =>
    have h0 := hpre l0 (by simp)
    simp only [List.cons_append, firstAudioHref, h0, Bool.false_eq_true, if_false]
    exact ih fun x hx => hpre x (by simp [hx])

theorem lyricsAvailable_iff (coll : List PDoc) (title artist : String) :
    lyricsAvailable (some coll) title artist = true ↔
      ∃ d, _get_song_from_db (some coll) title artist = some d ∧
        ∃ l, pyTruthy (pget d.lyrics) = some l ∧ 30 < l.length := by
  unfold lyricsAvailable
  cases hfd : _get_song_from_db (some coll) title artist with
  | none => simp
  | some d =>
    cases hpt : pyTruthy (pget d.lyrics) with
    | none => simp [hpt]
    | some l => simp [hpt]

/-- Claim C7: for every feed entry whose image list is non-empty and whose
link field is a list, the ingested cover is the last image's label, the
apple_url is the href of the first link entry exposing a (truthy) href, and
the preview_url is the href of the first link entry whose declared media
type starts with "audio/" and which has a truthy href. The first/audio
positions are given by arbitrary list decompositions, so the particular
two-link configuration of the claim (non-audio href first, audio-typed href
second) is the instance with an empty prefix for apple_url and the non-audio
link as the scanned-past prefix for preview_url. -/
theorem c7_chart_mapping (country : String) (idx : Nat) (e : FeedEntry)
    (db : Option (List PDoc)) (img : FeedImage) (ls : List LinkObj)
    (preA postA preP postP : List LinkObj) (lnkA lnkP : LinkObj) (hrefA hrefP : String)
    (himg : e.image.getLast? = some img)
    (hlink : e.link = .items ls)
    (hlsA : ls = preA ++ lnkA :: postA)
    (hpreA : ∀ l0 ∈ preA, pyTruthy ((l0.attributes.getD {}).href) = none)
    (hA : pyTruthy ((lnkA.attributes.getD {}).href) = some hrefA)
    (hlsP : ls = preP ++ lnkP :: postP)
    (hpreP : ∀ l0 ∈ preP,
      (pyStartsWith ((l0.attributes.getD {}).type.getD "") "audio/" &&
        (pyTruthy ((l0.attributes.getD {}).href)).isSome) = false)
    (hPt : pyStartsWith ((lnkP.attributes.getD {}).type.getD "") "audio/" = true)
    (hPh : pyTruthy ((lnkP.attributes.getD {}).href) = some hrefP) :
    (processEntry country idx e db).1.cover = some img.label ∧
    (processEntry country idx e db).1.apple_url = some hrefA ∧
    (processEntry country idx e db).1.preview_url = some hrefP := by
  refine ⟨?_, ?_, ?_⟩
  · show pget (chartDoc country idx e).cover = some img.label
    simp [chartDoc, himg, pget]
  · show pget (some (appleUrlOfLink e.link)) = some hrefA
    rw [hlink]
    show firstHref ls = some hrefA
    rw [hlsA]
    exact firstHref_decomp preA lnkA postA hrefA hpreA hA
  · show pget (some (previewUrlOfLink e.link)) = some hrefP
    rw [hlink]
    show firstAudioHref ls = some hrefP
    rw [hlsP]
    exact firstAudioHref_decomp preP lnkP postP hrefP hpreP hPt hPh

/-- Counterexample to claim C7 as stated: for a link list with one non-audio
href ("u1") and one audio-typed href ("u2") where the audio-typed link comes
first, `apple_url` equals the audio href "u2", not the non-audio href "u1" —
the apple_url loop takes the first truthy href regardless of its media
type. -/
theorem c7_counterexample :
    (processEntry "id" 1 c7SwappedEntry none).1.apple_url = some "u2" ∧
    (processEntry "id" 1 c7SwappedEntry none).1.apple_url ≠ some "u1" ∧
    (processEntry "id" 1 c7SwappedEntry none).1.preview_url = some "u2" := by
  decide

/-- Witness for C7 at the claim's concrete configuration: cover is the last
image, apple_url the non-audio href, preview_url the audio-typed href. -/
theorem c7_chart_mapping_witness :
    (processEntry "id" 1 c7Entry none).1.cover = some "i3" ∧
    (processEntry "id" 1 c7Entry none).1.apple_url = some "u1" ∧
    (processEntry "id" 1 c7Entry none).1.preview_url = some "u2" :=
  c7_chart_mapping "id" 1 c7Entry none ⟨"i3"⟩
    [⟨some ⟨some "u1", some "text/html"⟩⟩, ⟨some ⟨some "u2", some "audio/x-m4a"⟩⟩]
    [] [⟨some ⟨some "u2", some "audio/x-m4a"⟩⟩]
    [⟨some ⟨some "u1", some "text/html"⟩⟩] []
    ⟨some ⟨some "u1", some "text/html"⟩⟩ ⟨some ⟨some "u2", some "audio/x-m4a"⟩⟩
    "u1" "u2" (by decide) rfl rfl (by decide) (by decide) rfl (by decide) (by decide)
    (by decide)

/-- Claim C8: for every feed entry processed with storage available, the
returned `lyrics_available` flag is true exactly when the storage lookup for
that (title, artist) on the post-upsert state finds a record whose truthy
lyrics text is longer than 30 characters; with storage unavailable the flag
is false. The check is a pure function of the storage state — `processEntry`
takes no provider response at all, so no lyrics provider can be invoked. -/
theorem c8_lyrics_available (country : String) (idx : Nat) (e : FeedEntry)
    (coll : List PDoc) :
    (((processEntry country idx e (some coll)).1.lyrics_available = true) ↔
      (∃ d, _get_song_from_db (processEntry country idx e (some coll)).2
          e.name_label e.artist_label = some d ∧
        ∃ l, pyTruthy (pget d.lyrics) = some l ∧ 30 < l.length)) ∧
    (processEntry country idx e none).1.lyrics_available = false := by
  constructor
  · exact lyricsAvailable_iff
      (update_one (some e.name_label) (some e.artist_label) (chartDoc country idx e) coll)
      e.name_label e.artist_label
  · rfl

/-- Claim C9: a feed-fetch failure makes `get_trending` fail with the 502
"Gagal mengambil chart" error, returning no list and leaving storage
untouched; a successful fetch returns one summary per feed entry, in feed
order, with rank the 1-based feed position. -/
theorem c9_feed_failure (db : Option (List PDoc)) (country : String) (limit : Nat)
    (msg : String) (entries : List FeedEntry) :
    get_trending db country limit (.fail msg) =
      (.httpError 502 ("Gagal mengambil chart: " ++ msg), db) ∧
    (∃ outs, (get_trending db country limit (.ok entries)).1 = .ok outs ∧
      outs.length = entries.length ∧
      ∀ i, (outs.get? i).map (fun o => (o.title, o.artist, o.rank)) =
        (entries.get? i).map (fun e => (e.name_label, e.artist_label, 1 + i))) :=
  ⟨rfl, (runEntries country 1 entries db).1, rfl,
    runEntries_length country entries 1 db,
    fun i => runEntries_fst country entries 1 db i⟩

/-- Claim C4: chart ingestion (a) upserts each entry by its raw
(title, artist) key with the chart document of its fields (title, artist,
album, cover, apple_url, preview_url, rank, country, tags) — the database
effect is exactly the `ingestList` fold of `update_one`s; (b) never changes
any existing record's lyrics or lyrics_source (position-wise, every record
of the original collection keeps its lyrics pair); and (c) ingesting the
same feed twice yields the same stored records as ingesting it once, for
every starting storage state including an unavailable one. -/
theorem c4_ingest_invariants (coll : List PDoc) (country : String) (limit : Nat)
    (entries : List FeedEntry) (db : Option (List PDoc)) :
    (get_trending (some coll) country limit (.ok entries)).2 =
      some (ingestList country 1 entries coll) ∧
    (∀ i, lyricsPairAt coll i = none ∨
      lyricsPairAt (ingestList country 1 entries coll) i = lyricsPairAt coll i) ∧
    (get_trending (get_trending db country limit (.ok entries)).2 country limit
        (.ok entries)).2 = (get_trending db country limit (.ok entries)).2 := by
  refine ⟨?_, ?_, ?_⟩
  · exact runEntries_snd_some country entries 1 coll
  · exact fun i => lyricsPairAt_ingestList country entries 1 coll i
  · cases db with
    | none =>
      have h0 : (get_trending none country limit (.ok entries)).2 = none :=
        runEntries_snd_none country entries 1
      rw [h0]
      exact h0
    | some c0 =>
      have h1 : (get_trending (some c0) country limit (.ok entries)).2 =
          some (ingestList country 1 entries c0) :=
        runEntries_snd_some country entries 1 c0
      rw [h1]
      have h2 : (get_trending (some (ingestList country 1 entries c0)) country limit
          (.ok entries)).2 =
          some (ingestList country 1 entries (ingestList country 1 entries c0)) :=
        runEntries_snd_some country entries 1 _
      rw [h2, ingestList_idem country entries 1 c0]

